import Mathlib

set_option maxHeartbeats 1000000

/-! Shallow embedding of `python-services/services/confidence_scorer.py`
(class `ConfidenceScorer`).

Python floats are modelled as rationals.  Dynamically-typed dictionary
values are modelled explicitly: a numeric slot is either a number or a
wrong-typed value that raises when used in arithmetic or comparisons
(`NumVal.bad`); a sub-dictionary slot (`turbidity`, `visibility`, ...)
is either a dictionary whose inner field may be absent, or a wrong-typed
value that raises `AttributeError` on `.get` (`SubDict.bad`).  Python
exceptions are modelled with `Except Unit`; the blanket
`try ... except` fallbacks of the source become explicit catch branches. -/

/-- A dynamically-typed numeric slot: a number, or a wrong-typed value
that raises when used in arithmetic or comparisons. -/
inductive NumVal where
  | num (q : ℚ)
  | bad
  deriving DecidableEq

/-- A sub-dictionary slot such as `turbidity` or `texture_anomalies`:
`ok a` is a dictionary whose inner field is `a` (a missing sub-dictionary
behaves exactly like `ok none` because the code reads it with default
`{}`); `bad` is a wrong-typed value that raises on `.get`. -/
inductive SubDict (α : Type) where
  | ok (a : Option α)
  | bad
  deriving DecidableEq

/-- One analysis-category result dictionary, with the fields the scorer
reads.  Inner fields: `turbidity.level`, `color_index.dominant_color`,
`visibility.level`, `smog_density.type`, `texture_anomalies.anomaly_score`. -/
structure CategoryResult where
  overall_score : Option NumVal
  confidence : Option NumVal
  turbidity : SubDict String
  color_index : SubDict String
  visibility : SubDict String
  smog_density : SubDict String
  detected : Option Bool
  type : Option String
  texture_anomalies : SubDict NumVal
  deriving DecidableEq

/-- A value stored under a category key of `analysis_results`: either a
result dictionary, or a wrong-typed value that raises on `.get`. -/
inductive CategoryValue where
  | dict (r : CategoryResult)
  | nondict
  deriving DecidableEq

/-- `analysis_results`: an association list modelling the Python dict
(keys unique in actual Python inputs). -/
abbrev ResultSet := List (String × CategoryValue)

/-- A Python computation that may raise. -/
abbrev Py (α : Type) := Except Unit α

/-- `self.scoring_weights` (insertion order preserved, as Python dicts do). -/
def scoring_weights : List (String × ℚ) :=
  [("water_quality", 35/100), ("air_quality", 35/100), ("visual_contamination", 30/100)]

/-- The three known category keys. -/
def knownCategories : List String :=
  ["water_quality", "air_quality", "visual_contamination"]

def high_confidence_threshold : ℚ := 8/10

def medium_confidence_threshold : ℚ := 6/10

def low_confidence_threshold : ℚ := 4/10

def uncertainty_penalty_factor : ℚ := 1/10

/-- The categories present in the result set, iterated in the order of
`self.scoring_weights.items()`, each paired with its static weight. -/
def presentPairs (rs : ResultSet) : List (String × ℚ × CategoryValue) :=
  scoring_weights.filterMap (fun p => (rs.lookup p.1).map (fun v => (p.1, p.2, v)))

/-- Python `min` on two rationals (an explicit `if` so that the kernel
can evaluate it; equal to `Min.min`, see `pyMin_eq`). -/
def pyMin (a b : ℚ) : ℚ := if a ≤ b then a else b

/-- Python `max` on two rationals (equal to `Max.max`, see `pyMax_eq`). -/
def pyMax (a b : ℚ) : ℚ := if a ≤ b then b else a

/-- `np.var` (population variance). -/
def npVar (l : List ℚ) : ℚ :=
  ((l.map (fun x => (x - l.sum / l.length) ^ 2)).sum) / l.length

/-- Python `max` over a nonempty list (junk value 0 on `[]`, which the
code never reaches). -/
def npMax : List ℚ → ℚ
  | [] => 0
  | x :: xs => xs.foldl pyMax x

/-- Python `min` over a nonempty list (junk value 0 on `[]`). -/
def npMin : List ℚ → ℚ
  | [] => 0
  | x :: xs => xs.foldl pyMin x

/-- `min(max(q, 0.0), 1.0)`. -/
def clamp01 (q : ℚ) : ℚ := pyMin (pyMax q 0) 1

/-- Python `x += d` on a dynamic value: raises (keeping the old value as
the accumulated state) if `x` is not a number. -/
def pyAdd (a : NumVal) (d : ℚ) : Except NumVal NumVal :=
  match a with
  | .num q => .ok (.num (q + d))
  | .bad => .error .bad

/-- `result.get(key, {}).get(inner)`: raises when the sub-slot is a
non-dictionary; the error value carries the accumulated
`adjusted_confidence` at the raise point. -/
def subGet {α : Type} (s : SubDict α) (cur : NumVal) : Except NumVal (Option α) :=
  match s with
  | .ok a => .ok a
  | .bad => .error cur

/-- The `water_quality` branch of the `try` block of
`_adjust_confidence_by_quality`: `.error a` models an exception raised
while the accumulated `adjusted_confidence` is `a`. -/
def adjustWater (base : NumVal) (r : CategoryResult) : Except NumVal NumVal :=
  match subGet r.turbidity base with
  | .error e => .error e
  | .ok lvl =>
    match (if lvl = some "clear" ∨ lvl = some "highly_turbid" then pyAdd base (1/10) else .ok base) with
    | .error e => .error e
    | .ok a1 =>
      match subGet r.color_index a1 with
      | .error e => .error e
      | .ok col => if col = some "unclear" then pyAdd a1 (-(15/100)) else .ok a1

/-- The `air_quality` branch of the `try` block of
`_adjust_confidence_by_quality`. -/
def adjustAir (base : NumVal) (r : CategoryResult) : Except NumVal NumVal :=
  match subGet r.visibility base with
  | .error e => .error e
  | .ok lvl =>
    match (if lvl = some "excellent" ∨ lvl = some "poor" then pyAdd base (1/10) else .ok base) with
    | .error e => .error e
    | .ok a1 =>
      match subGet r.smog_density a1 with
      | .error e => .error e
      | .ok smog => if smog = some "none" then pyAdd a1 (-(5/100)) else .ok a1

/-- The `visual_contamination` branch of the `try` block of
`_adjust_confidence_by_quality`. -/
def adjustContam (base : NumVal) (r : CategoryResult) : Except NumVal NumVal :=
  match (if r.detected.getD false = true ∧ r.type.getD "unknown" ≠ "unknown" then
      pyAdd base (1/10) else .ok base) with
  | .error e => .error e
  | .ok a1 =>
    match subGet r.texture_anomalies a1 with
    | .error e => .error e
    | .ok tex =>
      match tex.getD (.num 0) with
      | .bad => .error a1
      | .num sc => if sc < 1/5 then pyAdd a1 (-(1/10)) else .ok a1

/-- The `try` block of `_adjust_confidence_by_quality`. -/
def adjustTry (base : NumVal) (r : CategoryResult) (ty : String) : Except NumVal NumVal :=
  if ty = "water_quality" then adjustWater base r
  else if ty = "air_quality" then adjustAir base r
  else if ty = "visual_contamination" then adjustContam base r
  else .ok base

/-- The value of `adjusted_confidence` after the `try` block: a
completed block gives its final value, a raised exception is swallowed
(`except: log`) keeping the value accumulated at the raise point. -/
def runValue (e : Except NumVal NumVal) : NumVal :=
  match e with
  | .ok v => v
  | .error v => v

/-- The accumulated `adjusted_confidence` after the `try` block. -/
def adjustRun (base : NumVal) (r : CategoryResult) (ty : String) : NumVal :=
  runValue (adjustTry base r ty)

/-- `_adjust_confidence_by_quality`: the final
`min(max(adjusted_confidence, 0.1), 1.0)` sits outside the inner `try`,
so it raises (to the caller) when the accumulated value is not a number. -/
def adjust_confidence_by_quality (base : NumVal) (r : CategoryResult) (ty : String) : Py ℚ :=
  match adjustRun base r ty with
  | .num q => .ok (pyMin (pyMax q (1/10)) 1)
  | .bad => .error ()

/-- Sequence a list of Python computations, stopping at the first raise
(models a Python `for` loop whose body may raise). -/
def pyMap {α β : Type} (f : α → Py β) : List α → Py (List β)
  | [] => .ok []
  | x :: xs =>
    match f x with
    | .error e => .error e
    | .ok y =>
      match pyMap f xs with
      | .error e => .error e
      | .ok ys => .ok (y :: ys)

/-- `analysis_results[t].get('overall_score', 0.5)`: raises when the
stored value is not a dictionary. -/
def scorePair (v : CategoryValue) : Py NumVal :=
  match v with
  | .nondict => .error ()
  | .dict r => .ok (r.overall_score.getD (.num (1/2)))

/-- `analysis_results[t].get('confidence', 0.5)`: raises when the stored
value is not a dictionary. -/
def confPairVal (v : CategoryValue) : Py NumVal :=
  match v with
  | .nondict => .error ()
  | .dict r => .ok (r.confidence.getD (.num (1/2)))

/-- Using a list of dynamic values numerically (`np.var`, `max`, `min`,
`<`): raises when any value is not a number. -/
def numsOf : List NumVal → Py (List ℚ)
  | [] => .ok []
  | .num q :: xs =>
    match numsOf xs with
    | .ok l => .ok (q :: l)
    | .error e => .error e
  | .bad :: _ => .error ()

/-- The `try` block of `_calculate_uncertainty_penalty`, as a function of
the present (category, weight, value) triples. -/
def penaltyAux (l : List (String × ℚ × CategoryValue)) : Py ℚ :=
  match pyMap (fun x => scorePair x.2.2) l with
  | .error e => .error e
  | .ok svals =>
    match (if 1 < svals.length then
        match numsOf svals with
        | .error e => .error e
        | .ok scores =>
          .ok ((if npVar scores > 1/10 then uncertainty_penalty_factor else 0) +
            (if npMax scores - npMin scores > 6/10 then uncertainty_penalty_factor * (1/2) else 0))
      else (.ok 0 : Py ℚ)) with
    | .error e => .error e
    | .ok p1 =>
      match pyMap (fun x => confPairVal x.2.2) l with
      | .error e => .error e
      | .ok cvals =>
        match numsOf cvals with
        | .error e => .error e
        | .ok cqs =>
          let lc := (cqs.filter (fun q => decide (q < low_confidence_threshold))).length
          .ok (pyMin (p1 + (if 2 ≤ lc then uncertainty_penalty_factor * (3/10) else 0)) (3/10))

/-- `_calculate_uncertainty_penalty`: any exception is caught and turned
into `0.0`. -/
def calculate_uncertainty_penalty (rs : ResultSet) : ℚ :=
  match penaltyAux (presentPairs rs) with
  | .ok q => q
  | .error _ => 0

/-- One iteration of the confidence-collection loop of
`calculate_overall_confidence`. -/
def confPair (ty : String) (w : ℚ) (v : CategoryValue) : Py (ℚ × ℚ) :=
  match v with
  | .nondict => .error ()
  | .dict r =>
    match adjust_confidence_by_quality (r.confidence.getD (.num (1/2))) r ty with
    | .error _ => .error ()
    | .ok a => .ok (a, w)

/-- `np.sum(values * (weights / np.sum(weights)))`. -/
def weightedSum (pairs : List (ℚ × ℚ)) : ℚ :=
  (pairs.map (fun p => p.1 * (p.2 / (pairs.map (fun p' => p'.2)).sum))).sum

/-- The `try` block of `calculate_overall_confidence`, as a function of
the present triples and the (already caught) uncertainty penalty. -/
def confAux (l : List (String × ℚ × CategoryValue)) (pen : ℚ) : Py ℚ :=
  match pyMap (fun x => confPair x.1 x.2.1 x.2.2) l with
  | .error e => .error e
  | .ok pairs =>
    if pairs.isEmpty then .ok (3/10)
    else .ok (clamp01 (pyMax (1/10) (weightedSum pairs - pen)))

/-- `calculate_overall_confidence`: any exception is caught and turned
into `0.3`. -/
def calculate_overall_confidence (rs : ResultSet) : ℚ :=
  match confAux (presentPairs rs) (calculate_uncertainty_penalty rs) with
  | .ok q => q
  | .error _ => 3/10

/-- The per-category blend `score * confidence + 0.5 * (1 - confidence)`
of `calculate_environmental_score`: raises when either dynamic value is
not a number. -/
def envPair (v : CategoryValue) : Py ℚ :=
  match v with
  | .nondict => .error ()
  | .dict r =>
    match r.overall_score.getD (.num (1/2)), r.confidence.getD (.num (1/2)) with
    | .num s, .num c => .ok (s * c + (1/2) * (1 - c))
    | _, _ => .error ()

/-- One iteration of the score-collection loop of
`calculate_environmental_score`. -/
def envPairW (w : ℚ) (v : CategoryValue) : Py (ℚ × ℚ) :=
  match envPair v with
  | .error e => .error e
  | .ok b => .ok (b, w)

/-- The `try` block of `calculate_environmental_score`, as a function of
the present triples. -/
def envAux (l : List (String × ℚ × CategoryValue)) : Py ℚ :=
  match pyMap (fun x => envPairW x.2.1 x.2.2) l with
  | .error e => .error e
  | .ok pairs =>
    if pairs.isEmpty then .ok (1/2)
    else .ok (clamp01 (weightedSum pairs))

/-- `calculate_environmental_score`: any exception is caught and turned
into `0.5`. -/
def calculate_environmental_score (rs : ResultSet) : ℚ :=
  match envAux (presentPairs rs) with
  | .ok q => q
  | .error _ => 1/2

/-- `get_confidence_level`. -/
def get_confidence_level (q : ℚ) : String :=
  if q ≥ high_confidence_threshold then "high"
  else if q ≥ medium_confidence_threshold then "medium"
  else if q ≥ low_confidence_threshold then "low"
  else "very_low"

/-- One iteration of the detection-clarity loop of
`_assess_quality_indicators` (1 if counted as a clear detection, else 0);
raises on a non-dictionary result or a non-dictionary sub-slot, exactly
at the accesses the code performs.  Keys outside the three known
categories perform no access and count 0. -/
def clarityCount (ty : String) (v : CategoryValue) : Py Nat :=
  if ty = "water_quality" then
    match v with
    | .nondict => .error ()
    | .dict r =>
      match r.turbidity with
      | .bad => .error ()
      | .ok lvl =>
        .ok (if lvl.getD "unknown" = "clear" ∨ lvl.getD "unknown" = "highly_turbid" then 1 else 0)
  else if ty = "air_quality" then
    match v with
    | .nondict => .error ()
    | .dict r =>
      match r.visibility with
      | .bad => .error ()
      | .ok lvl =>
        .ok (if lvl.getD "unknown" = "excellent" ∨ lvl.getD "unknown" = "poor" then 1 else 0)
  else if ty = "visual_contamination" then
    match v with
    | .nondict => .error ()
    | .dict r => .ok (if r.type.getD "unknown" ≠ "unknown" then 1 else 0)
  else .ok 0

/-- The `quality_indicators` dictionary. -/
structure QualityIndicators where
  data_completeness : ℚ
  result_consistency : ℚ
  detection_clarity : ℚ
  deriving DecidableEq

/-- `_assess_quality_indicators`: iterates over every entry of
`analysis_results` (unknown keys included); no internal `try`, so a raise
propagates to the caller. -/
def assessBody (rs : ResultSet) : Py QualityIndicators :=
  match pyMap (fun p => clarityCount p.1 p.2) rs with
  | .error e => .error e
  | .ok counts =>
    .ok { data_completeness := (rs.length : ℚ) / 3,
          result_consistency := 1 - calculate_uncertainty_penalty rs / (3/10),
          detection_clarity :=
            if 0 < rs.length then ((counts.sum : ℚ) / rs.length) else 1/2 }

/-- `_generate_confidence_recommendations` (independent checks, in order). -/
def confidence_recommendations (oc : ℚ) (qi : QualityIndicators) : List String :=
  (if oc < 4/10 then ["Low confidence detected - consider additional data sources"] else []) ++
    (if qi.data_completeness < 8/10 then
      ["Incomplete analysis - some environmental factors not assessed"] else []) ++
    (if qi.result_consistency < 6/10 then
      ["Inconsistent results detected - manual verification recommended"] else []) ++
    (if qi.detection_clarity < 1/2 then
      ["Unclear detection results - image quality may be insufficient"] else []) ++
    (if oc > 8/10 then ["High confidence analysis - results are reliable"] else [])

/-- One entry of `individual_confidences`: reads the raw confidence
(raises on a non-dictionary result) and classifies it (`get_confidence_level`
raises on a wrong-typed confidence). -/
def indivPair (ty : String) (v : CategoryValue) : Py (String × ℚ × String) :=
  match confPairVal v with
  | .error e => .error e
  | .ok .bad => .error ()
  | .ok (.num q) => .ok (ty, q, get_confidence_level q)

/-- The report dictionary returned by `generate_confidence_report`.
Fields absent from the degraded fallback dictionary are `Option`s. -/
structure ConfidenceReport where
  overall_confidence : ℚ
  confidence_level : String
  environmental_score : ℚ
  individual_confidences : Option (List (String × ℚ × String))
  quality_indicators : Option QualityIndicators
  uncertainty_penalty : Option ℚ
  recommendations : Option (List String)
  error : Option String
  deriving DecidableEq

/-- The `try` block of `generate_confidence_report`.  The two score
calculations catch their own exceptions; the individual-confidence loop
and `_assess_quality_indicators` do not, so their raises reach this
block's `except`. -/
def reportBody (rs : ResultSet) : Py ConfidenceReport :=
  match pyMap (fun x => indivPair x.1 x.2.2) (presentPairs rs) with
  | .error e => .error e
  | .ok ind =>
    match assessBody rs with
    | .error e => .error e
    | .ok qi =>
      .ok { overall_confidence := calculate_overall_confidence rs,
            confidence_level := get_confidence_level (calculate_overall_confidence rs),
            environmental_score := calculate_environmental_score rs,
            individual_confidences := some ind,
            quality_indicators := some qi,
            uncertainty_penalty := some (calculate_uncertainty_penalty rs),
            recommendations :=
              some (confidence_recommendations (calculate_overall_confidence rs) qi),
            error := none }

/-- `generate_confidence_report`: any exception is caught and turned
into the degraded report dictionary. -/
def generate_confidence_report (rs : ResultSet) : ConfidenceReport :=
  match reportBody rs with
  | .ok r => r
  | .error _ =>
    { overall_confidence := 3/10, confidence_level := "low", environmental_score := 1/2,
      individual_confidences := none, quality_indicators := none,
      uncertainty_penalty := none, recommendations := none,
      error := some "Failed to generate confidence report" }

/-- True when a Python computation raises. -/
def pyRaises {α : Type} : Py α → Bool
  | .error _ => true
  | .ok _ => false

/-! ### Well-formed (well-typed) inputs and pure views -/

/-- The numeric slot holds a number (not a wrong-typed value). -/
def NumVal.isNum : NumVal → Bool
  | .num _ => true
  | .bad => false

/-- An optional numeric field is absent or holds a number. -/
def optNumOk : Option NumVal → Bool
  | none => true
  | some v => v.isNum

/-- The sub-dictionary slot is a dictionary (possibly with the inner
field absent). -/
def SubDict.isDict {α : Type} : SubDict α → Bool
  | .ok _ => true
  | .bad => false

/-- The `texture_anomalies` slot is a dictionary whose `anomaly_score`,
when present, is a number. -/
def texOk : SubDict NumVal → Bool
  | .ok none => true
  | .ok (some v) => v.isNum
  | .bad => false

/-- A category result dictionary with every field well-typed. -/
def CategoryResult.wellFormed (r : CategoryResult) : Bool :=
  optNumOk r.overall_score && optNumOk r.confidence && r.turbidity.isDict &&
    r.color_index.isDict && r.visibility.isDict && r.smog_density.isDict &&
    texOk r.texture_anomalies

/-- A category value that is a well-typed result dictionary. -/
def CategoryValue.wellFormed : CategoryValue → Bool
  | .dict r => r.wellFormed
  | .nondict => false

/-- Every entry of the result set is a well-typed result dictionary. -/
def wellFormedSet (rs : ResultSet) : Bool := rs.all (fun p => p.2.wellFormed)

/-- The value is a dictionary whose two numeric fields (`overall_score`,
`confidence`) are absent or numbers; the qualitative sub-fields are
unconstrained (they may even be wrong-typed). -/
def numericFields : CategoryValue → Bool
  | .dict r => optNumOk r.overall_score && optNumOk r.confidence
  | .nondict => false

/-- Every entry of the result set has numeric `overall_score` and
`confidence` fields. -/
def numericSet (rs : ResultSet) : Bool := rs.all (fun p => numericFields p.2)

/-- The number held by an optional numeric field, with the code's default. -/
def qOf (v : Option NumVal) (d : ℚ) : ℚ :=
  match v with
  | some (.num q) => q
  | some .bad => d
  | none => d

/-- The defaulted `overall_score` of a present category. -/
def scoreQ (v : CategoryValue) : ℚ :=
  match v with
  | .dict r => qOf r.overall_score (1/2)
  | .nondict => 1/2

/-- The defaulted `confidence` of a present category. -/
def confQ (v : CategoryValue) : ℚ :=
  match v with
  | .dict r => qOf r.confidence (1/2)
  | .nondict => 1/2

/-- The confidence-weighted blend of a present category. -/
def blendOf (v : CategoryValue) : ℚ := scoreQ v * confQ v + (1/2) * (1 - confQ v)

/-- The contribution of one category key to `presentPairs`. -/
def optEntry (ty : String) (w : ℚ) (o : Option CategoryValue) : List (String × ℚ × CategoryValue) :=
  match o with
  | none => []
  | some v => [(ty, w, v)]

/-- Replace a field: the category result with `overall_score` set to `s`
(used to state score-monotonicity). -/
def setScoreVal (v : CategoryValue) (s : ℚ) : CategoryValue :=
  match v with
  | .dict r => .dict { r with overall_score := some (.num s) }
  | .nondict => .nondict

/-- The result set with category `ty`'s `overall_score` set to `s` and
every other field of every category unchanged. -/
def setScore (rs : ResultSet) (ty : String) (s : ℚ) : ResultSet :=
  rs.map (fun p => if p.1 = ty then (p.1, setScoreVal p.2 s) else p)

/-- Two optional category values agree on presence and, when present, on
their `overall_score` and `confidence` fields (their qualitative
sub-fields may differ arbitrarily). -/
def sameScoreConf : Option CategoryValue → Option CategoryValue → Prop
  | none, none => True
  | some (.dict r1), some (.dict r2) =>
    r1.overall_score = r2.overall_score ∧ r1.confidence = r2.confidence
  | _, _ => False

/-- The inner level of a string sub-dictionary with the code's default. -/
def subLevelD (s : SubDict String) : String :=
  match s with
  | .ok l => l.getD "unknown"
  | .bad => "unknown"

/-- A category reading counted as unambiguous by
`_assess_quality_indicators` (for `visual_contamination` the code checks
only `type != "unknown"`, without requiring `detected`). -/
def unambiguousReading (ty : String) (v : CategoryValue) : Bool :=
  match v with
  | .nondict => false
  | .dict r =>
    if ty = "water_quality" then
      decide (subLevelD r.turbidity = "clear" ∨ subLevelD r.turbidity = "highly_turbid")
    else if ty = "air_quality" then
      decide (subLevelD r.visibility = "excellent" ∨ subLevelD r.visibility = "poor")
    else if ty = "visual_contamination" then decide (r.type.getD "unknown" ≠ "unknown")
    else false

/-! ### Concrete sample inputs (used by witnesses and counterexamples) -/

/-- A result dictionary with every optional field absent and every
sub-dictionary empty. -/
def baseResult : CategoryResult :=
  { overall_score := none, confidence := none, turbidity := .ok none,
    color_index := .ok none, visibility := .ok none, smog_density := .ok none,
    detected := none, type := none, texture_anomalies := .ok none }

/-- A well-formed water-quality result (score 0.75, confidence 0.8,
clear turbidity). -/
def sampleW : CategoryResult :=
  { baseResult with
    overall_score := some (.num (75/100)), confidence := some (.num (8/10)),
    turbidity := .ok (some "clear") }

/-- A well-formed air-quality result (score 0.65, confidence 0.65). -/
def sampleA : CategoryResult :=
  { baseResult with overall_score := some (.num (65/100)), confidence := some (.num (65/100)) }

/-- A well-formed visual-contamination result (score 0.4, confidence
0.65, detected plastic). -/
def sampleV : CategoryResult :=
  { baseResult with
    overall_score := some (.num (40/100)), confidence := some (.num (65/100)),
    detected := some true, type := some "plastic",
    texture_anomalies := .ok (some (.num (3/10))) }

/-- A well-formed result set with all three categories. -/
def sampleSet : ResultSet :=
  [("water_quality", .dict sampleW), ("air_quality", .dict sampleA),
    ("visual_contamination", .dict sampleV)]

/-- A water result whose `turbidity` heuristic fires (+0.1) and whose
`color_index` is a wrong-typed value raising afterwards. -/
def badColorResult : CategoryResult :=
  { baseResult with turbidity := .ok (some "clear"), color_index := .bad }

/-- A water result whose `turbidity` slot itself is wrong-typed. -/
def turbBadResult : CategoryResult := { baseResult with turbidity := .bad }

/-- A contamination result with `detected = False` but a named `type`:
counted as a clear detection by `_assess_quality_indicators` even though
the Confidence Adjuster's boost would not fire. -/
def undetectedTyped : CategoryResult :=
  { baseResult with detected := some false, type := some "plastic" }

/-- Result set exposing the clarity-rule divergence. -/
def undetectedTypedSet : ResultSet := [("visual_contamination", .dict undetectedTyped)]

/-- A malformed result set: the category value is not a dictionary. -/
def nondictSet : ResultSet := [("water_quality", .nondict)]

/-- A well-formed water-only set with a clear turbidity reading. -/
def clearWaterSet : ResultSet := [("water_quality", .dict sampleW)]

/-- A result set with all three known categories plus an unknown key. -/
def extraKeySet : ResultSet := sampleSet ++ [("noise_level", .dict baseResult)]

/-- `sampleW` with different qualitative sub-fields but the same
`overall_score` and `confidence`. -/
def sampleWQual : CategoryResult :=
  { sampleW with
    turbidity := .ok (some "murky"), color_index := .ok (some "unclear"),
    texture_anomalies := .bad }

/-- A second result set for the noninterference witness: same scores and
confidences as `clearWaterSet`, different qualitative fields. -/
def clearWaterSetQual : ResultSet := [("water_quality", .dict sampleWQual)]

/-! ### Supporting lemmas -/

theorem pyMin_eq (a b : ℚ) : pyMin a b = min a b := (min_def a b).symm

theorem pyMax_eq (a b : ℚ) : pyMax a b = max a b := (max_def a b).symm

theorem clamp01_eq (q : ℚ) : clamp01 q = min (max q 0) 1 := by
  unfold clamp01
  rw [pyMin_eq, pyMax_eq]

theorem pyMap_ok_of_forall {α β : Type} (f : α → Py β) (g : α → β) :
    ∀ l : List α, (∀ x ∈ l, f x = .ok (g x)) → pyMap f l = .ok (l.map g) := by
  intro l
  induction l with
  | nil => intro _; rfl
  | cons x xs ih =>
    intro h
    have hx := h x (List.mem_cons_self x xs)
    have hxs := ih (fun y hy => h y (List.mem_cons_of_mem x hy))
    simp [pyMap, hx, hxs]

theorem lookup_all {pr : CategoryValue → Bool} {rs : ResultSet} {k : String}
    {v : CategoryValue} (hall : rs.all (fun p => pr p.2) = true)
    (h : rs.lookup k = some v) : pr v = true := by
  induction rs with
  | nil => simp [List.lookup] at h
  | cons p rs ih =>
    have hall' : pr p.2 = true ∧ rs.all (fun p => pr p.2) = true := by
      simpa using hall
    rw [List.lookup] at h
    by_cases hk : k == p.1
    · rw [hk] at h
      simp at h
      exact h ▸ hall'.1
    · rw [Bool.not_eq_true] at hk
      rw [hk] at h
      exact ih hall'.2 h

theorem lookup_wf {rs : ResultSet} {k : String} {v : CategoryValue}
    (hwf : wellFormedSet rs = true) (h : rs.lookup k = some v) :
    v.wellFormed = true :=
  @lookup_all CategoryValue.wellFormed _ _ _ hwf h

theorem presentPairs_mem_all {pr : CategoryValue → Bool} {rs : ResultSet}
    {x : String × ℚ × CategoryValue} (hall : rs.all (fun p => pr p.2) = true)
    (hx : x ∈ presentPairs rs) : pr x.2.2 = true := by
  unfold presentPairs at hx
  rcases List.mem_filterMap.mp hx with ⟨p, _, hp⟩
  rcases Option.map_eq_some'.mp hp with ⟨v, hv, hxv⟩
  have := lookup_all hall hv
  rw [← hxv]
  exact this

theorem presentPairs_mem_wf {rs : ResultSet} {x : String × ℚ × CategoryValue}
    (hwf : wellFormedSet rs = true) (hx : x ∈ presentPairs rs) :
    x.2.2.wellFormed = true :=
  @presentPairs_mem_all CategoryValue.wellFormed _ _ hwf hx

theorem presentPairs_mem_num {rs : ResultSet} {x : String × ℚ × CategoryValue}
    (hn : numericSet rs = true) (hx : x ∈ presentPairs rs) :
    numericFields x.2.2 = true :=
  @presentPairs_mem_all numericFields _ _ hn hx

theorem num_dict {v : CategoryValue} (h : numericFields v = true) :
    ∃ r, v = .dict r ∧ optNumOk r.overall_score = true ∧ optNumOk r.confidence = true := by
  cases v with
  | dict r =>
    have h' : optNumOk r.overall_score = true ∧ optNumOk r.confidence = true := by
      simpa [numericFields] using h
    exact ⟨r, rfl, h'.1, h'.2⟩
  | nondict => simp [numericFields] at h

theorem getD_eq_num {o : Option NumVal} {d : ℚ} (h : optNumOk o = true) :
    o.getD (.num d) = .num (qOf o d) := by
  match o with
  | none => rfl
  | some (.num q) => rfl
  | some .bad => simp [optNumOk, NumVal.isNum] at h

theorem numsOf_map_num (g : α → ℚ) :
    ∀ l : List α, numsOf (l.map (fun x => NumVal.num (g x))) = .ok (l.map g) := by
  intro l
  induction l with
  | nil => rfl
  | cons x xs ih => simp [numsOf, ih]

theorem sum_map_div (l : List (ℚ × ℚ)) (W : ℚ) :
    (l.map (fun p => p.1 * (p.2 / W))).sum = (l.map (fun p => p.1 * p.2)).sum / W := by
  induction l with
  | nil => simp
  | cons p l ih => simp [ih, add_div, mul_div_assoc]

theorem weightedSum_eq (pairs : List (ℚ × ℚ)) :
    weightedSum pairs = (pairs.map (fun p => p.1 * p.2)).sum / (pairs.map (fun p => p.2)).sum := by
  unfold weightedSum
  exact sum_map_div pairs _

theorem presentPairs_decomp (rs : ResultSet) :
    presentPairs rs =
      optEntry "water_quality" (35/100) (rs.lookup "water_quality") ++
        (optEntry "air_quality" (35/100) (rs.lookup "air_quality") ++
          optEntry "visual_contamination" (30/100) (rs.lookup "visual_contamination")) := by
  unfold presentPairs scoring_weights
  rcases h1 : rs.lookup "water_quality" with _ | v1 <;>
    rcases h2 : rs.lookup "air_quality" with _ | v2 <;>
      rcases h3 : rs.lookup "visual_contamination" with _ | v3 <;>
        simp [optEntry, List.filterMap, h1, h2, h3]

theorem clamp01_mono {x y : ℚ} (h : x ≤ y) : clamp01 x ≤ clamp01 y := by
  rw [clamp01_eq, clamp01_eq]
  exact min_le_min (max_le_max h le_rfl) le_rfl

theorem clamp01_nonneg (x : ℚ) : 0 ≤ clamp01 x := by
  rw [clamp01_eq]
  exact le_min (le_max_right x 0) (by norm_num)

theorem clamp01_le_one (x : ℚ) : clamp01 x ≤ 1 := by
  rw [clamp01_eq]
  exact min_le_right _ _

theorem wf_dict {v : CategoryValue} (h : v.wellFormed = true) :
    ∃ r, v = .dict r ∧ r.wellFormed = true := by
  cases v with
  | dict r => exact ⟨r, rfl, h⟩
  | nondict => simp [CategoryValue.wellFormed] at h

theorem wellFormed_numericFields {v : CategoryValue} (h : v.wellFormed = true) :
    numericFields v = true := by
  rcases wf_dict h with ⟨r, rfl, hr⟩
  unfold CategoryResult.wellFormed at hr
  simp only [Bool.and_eq_true] at hr
  simp [numericFields, hr.1.1.1.1.1.1, hr.1.1.1.1.1.2]

theorem scorePair_wf {v : CategoryValue} (h : numericFields v = true) :
    scorePair v = .ok (.num (scoreQ v)) := by
  rcases num_dict h with ⟨r, rfl, hs, hc⟩
  simp [scorePair, scoreQ, getD_eq_num hs]

theorem confPairVal_wf {v : CategoryValue} (h : numericFields v = true) :
    confPairVal v = .ok (.num (confQ v)) := by
  rcases num_dict h with ⟨r, rfl, hs, hc⟩
  simp [confPairVal, confQ, getD_eq_num hc]

theorem envPair_wf {v : CategoryValue} (h : numericFields v = true) :
    envPair v = .ok (blendOf v) := by
  rcases num_dict h with ⟨r, rfl, hs, hc⟩
  simp [envPair, blendOf, scoreQ, confQ, getD_eq_num hs, getD_eq_num hc]

theorem penaltyAux_wf (l : List (String × ℚ × CategoryValue))
    (h : ∀ x ∈ l, numericFields x.2.2 = true) :
    penaltyAux l = .ok (min
      ((if 1 < l.length then
          (if npVar (l.map (fun x => scoreQ x.2.2)) > 1/10 then uncertainty_penalty_factor else 0) +
            (if npMax (l.map (fun x => scoreQ x.2.2)) - npMin (l.map (fun x => scoreQ x.2.2)) > 6/10
              then uncertainty_penalty_factor * (1/2) else 0)
        else 0) +
        (if 2 ≤ ((l.map (fun x => confQ x.2.2)).filter
            (fun q => decide (q < low_confidence_threshold))).length
          then uncertainty_penalty_factor * (3/10) else 0)) (3/10)) := by
  have h1 : pyMap (fun x => scorePair x.2.2) l = .ok (l.map (fun x => NumVal.num (scoreQ x.2.2))) := by
    have := pyMap_ok_of_forall (fun x => scorePair x.2.2)
      (fun x => NumVal.num (scoreQ x.2.2)) l (fun x hx => scorePair_wf (h x hx))
    simpa using this
  have h2 : pyMap (fun x => confPairVal x.2.2) l = .ok (l.map (fun x => NumVal.num (confQ x.2.2))) := by
    have := pyMap_ok_of_forall (fun x => confPairVal x.2.2)
      (fun x => NumVal.num (confQ x.2.2)) l (fun x hx => confPairVal_wf (h x hx))
    simpa using this
  have h3 := numsOf_map_num (fun x => scoreQ x.2.2) l
  have h4 := numsOf_map_num (fun x => confQ x.2.2) l
  unfold penaltyAux
  rw [h1, h2]
  simp only [List.length_map]
  by_cases hl : 1 < l.length
  · simp [hl, h3, h4, pyMin_eq]
  · simp [hl, h4, pyMin_eq]

theorem envAux_wf (l : List (String × ℚ × CategoryValue))
    (h : ∀ x ∈ l, numericFields x.2.2 = true) :
    envAux l = .ok (if l.isEmpty then 1/2
      else clamp01 (weightedSum (l.map (fun x => (blendOf x.2.2, x.2.1))))) := by
  have h1 : pyMap (fun x => envPairW x.2.1 x.2.2) l = .ok (l.map (fun x => (blendOf x.2.2, x.2.1))) := by
    apply pyMap_ok_of_forall
    intro x hx
    simp [envPairW, envPair_wf (h x hx)]
  unfold envAux
  rw [h1]
  rcases l with _ | ⟨x, l⟩ <;> simp

theorem clamp01_max_lower (x : ℚ) : 1/10 ≤ clamp01 (pyMax (1/10) x) := by
  rw [clamp01_eq, pyMax_eq]
  refine le_min ?_ (by norm_num)
  exact le_trans (le_max_left _ _) (le_max_left _ _)

theorem penalty_bounds (rs : ResultSet) :
    0 ≤ calculate_uncertainty_penalty rs ∧ calculate_uncertainty_penalty rs ≤ 3/10 := by
  unfold calculate_uncertainty_penalty
  rcases h : penaltyAux (presentPairs rs) with _ | q
  · norm_num
  · unfold penaltyAux at h
    split at h
    · exact absurd h (by simp)
    · split at h
      · exact absurd h (by simp)
      · rename_i p1 hp1
        split at h
        · exact absurd h (by simp)
        · split at h
          · exact absurd h (by simp)
          · simp only [Except.ok.injEq] at h
            have hp1nn : 0 ≤ p1 := by
              split at hp1
              · split at hp1
                · exact absurd hp1 (by simp)
                · simp only [Except.ok.injEq] at hp1
                  rw [← hp1]
                  apply add_nonneg <;> split <;> norm_num [uncertainty_penalty_factor]
              · simp only [Except.ok.injEq] at hp1
                rw [← hp1]
            rw [← h, pyMin_eq]
            refine ⟨le_min (add_nonneg hp1nn ?_) (by norm_num), min_le_right _ _⟩
            split <;> norm_num [uncertainty_penalty_factor]

/-- C4: on the empty result set, `calculate_overall_confidence` returns
exactly 0.3 and `calculate_environmental_score` returns exactly 0.5. -/
theorem C4_empty_fallbacks :
    calculate_overall_confidence [] = 3/10 ∧ calculate_environmental_score [] = 1/2 := by
  constructor <;> rfl

/-- C3: for every input result set — including malformed ones whose
internal exception is caught and turned into the fallback 0.3 — the
overall confidence lies in [0.1, 1]. -/
theorem C3_overall_confidence_bounds (rs : ResultSet) :
    1/10 ≤ calculate_overall_confidence rs ∧ calculate_overall_confidence rs ≤ 1 := by
  unfold calculate_overall_confidence
  rcases hc : confAux (presentPairs rs) (calculate_uncertainty_penalty rs) with _ | q
  · norm_num
  · unfold confAux at hc
    split at hc
    · exact absurd hc (by simp)
    · split at hc
      · simp only [Except.ok.injEq] at hc
        rw [← hc]
        norm_num
      · simp only [Except.ok.injEq] at hc
        rw [← hc]
        exact ⟨clamp01_max_lower _, clamp01_le_one _⟩

/-- C1: on well-typed result sets the uncertainty penalty is the capped
sum of three independent increments — 0.1 when the population variance of
the (defaulted) overall scores of the present categories exceeds 0.1,
0.05 when their range exceeds 0.6 (both increments 0 with fewer than two
present categories), and 0.03 when at least two present categories report
confidence < 0.4 (a missing confidence counting as 0.5) — capped at 0.3;
and for every input the result lies in [0, 0.3]. -/
theorem C1_uncertainty_penalty_formula (rs : ResultSet) :
    (numericSet rs = true →
      calculate_uncertainty_penalty rs =
        min ((if 1 < (presentPairs rs).length ∧
                npVar ((presentPairs rs).map (fun x => scoreQ x.2.2)) > 1/10
              then (1/10 : ℚ) else 0) +
            (if 1 < (presentPairs rs).length ∧
                npMax ((presentPairs rs).map (fun x => scoreQ x.2.2)) -
                  npMin ((presentPairs rs).map (fun x => scoreQ x.2.2)) > 6/10
              then (1/20 : ℚ) else 0) +
            (if 2 ≤ (((presentPairs rs).map (fun x => confQ x.2.2)).filter
                (fun q => decide (q < 4/10))).length
              then (3/100 : ℚ) else 0)) (3/10)) ∧
    0 ≤ calculate_uncertainty_penalty rs ∧ calculate_uncertainty_penalty rs ≤ 3/10 := by
  refine ⟨?_, penalty_bounds rs⟩
  intro hwf
  unfold calculate_uncertainty_penalty
  rw [penaltyAux_wf _ (fun x hx => presentPairs_mem_num hwf hx)]
  by_cases h1 : 1 < (presentPairs rs).length <;>
    simp [h1, uncertainty_penalty_factor, low_confidence_threshold] <;>
    norm_num

theorem env_formula (rs : ResultSet) (hwf : numericSet rs = true)
    (hne : presentPairs rs ≠ []) :
    calculate_environmental_score rs =
      clamp01 (((presentPairs rs).map (fun x => blendOf x.2.2 * x.2.1)).sum /
        ((presentPairs rs).map (fun x => x.2.1)).sum) := by
  unfold calculate_environmental_score
  rw [envAux_wf _ (fun x hx => presentPairs_mem_num hwf hx)]
  have hF : (presentPairs rs).isEmpty = false := by
    cases hpp : presentPairs rs
    · exact absurd hpp hne
    · rfl
  simp only [hF, Bool.false_eq_true, if_false]
  rw [weightedSum_eq]
  simp [List.map_map, Function.comp_def]

/-- C1 witness: the penalty formula evaluated on a concrete well-formed
three-category result set. -/
theorem C1_uncertainty_penalty_formula_witness :
    numericSet sampleSet = true ∧ calculate_uncertainty_penalty sampleSet = 0 := by
  refine ⟨by decide, ?_⟩
  rw [(C1_uncertainty_penalty_formula sampleSet).1 (by decide)]
  have hpp : presentPairs sampleSet =
      [("water_quality", 35/100, .dict sampleW), ("air_quality", 35/100, .dict sampleA),
        ("visual_contamination", 30/100, .dict sampleV)] := rfl
  rw [hpp]
  norm_num [npVar, npMax, npMin, pyMax, pyMin, scoreQ, confQ, qOf, sampleW, sampleA,
    sampleV, baseResult, min_def, List.filter]

/-- C2: on well-typed non-empty result sets the environmental score is
the clamped weighted average, with the static weights renormalized over
the present categories, of the per-category blends
`score*confidence + 0.5*(1-confidence)`; in particular with only
`air_quality` and `visual_contamination` present the effective weights
are 0.35/0.65 and 0.30/0.65. -/
theorem C2_environmental_score_weighted_average :
    (∀ rs : ResultSet, numericSet rs = true → presentPairs rs ≠ [] →
      calculate_environmental_score rs =
        clamp01 (((presentPairs rs).map (fun x => blendOf x.2.2 * x.2.1)).sum /
          ((presentPairs rs).map (fun x => x.2.1)).sum)) ∧
    (∀ ra rv : CategoryResult, numericFields (.dict ra) = true →
      numericFields (.dict rv) = true →
      calculate_environmental_score
          [("air_quality", .dict ra), ("visual_contamination", .dict rv)] =
        clamp01 (blendOf (.dict ra) * ((35:ℚ)/65) + blendOf (.dict rv) * ((30:ℚ)/65))) := by
  constructor
  · exact env_formula
  · intro ra rv hra hrv
    have hpp : presentPairs [("air_quality", .dict ra), ("visual_contamination", .dict rv)] =
        [("air_quality", 35/100, .dict ra), ("visual_contamination", 30/100, .dict rv)] := by
      rfl
    have hwf2 : numericSet [("air_quality", .dict ra), ("visual_contamination", .dict rv)] = true := by
      simp [numericSet, hra, hrv]
    rw [env_formula _ hwf2 (by rw [hpp]; simp), hpp]
    simp only [List.map, List.sum_cons, List.sum_nil]
    congr 1
    rw [div_eq_iff (by norm_num : (35/100 + (30/100 + 0) : ℚ) ≠ 0)]
    ring

/-- C2 witness: the two-category renormalization evaluated on concrete
well-formed results. -/
theorem C2_environmental_score_weighted_average_witness :
    calculate_environmental_score
        [("air_quality", .dict sampleA), ("visual_contamination", .dict sampleV)] =
      clamp01 (blendOf (.dict sampleA) * ((35:ℚ)/65) + blendOf (.dict sampleV) * ((30:ℚ)/65)) :=
  C2_environmental_score_weighted_average.2 sampleA sampleV (by decide) (by decide)

theorem adjustWater_num (q : ℚ) (r : CategoryResult) :
    ∃ x, runValue (adjustWater (.num q) r) = .num x := by
  unfold adjustWater
  rcases r.turbidity with lvl | _ <;>
    rcases r.color_index with col | _ <;>
      simp only [subGet, pyAdd, runValue] <;>
        (try split_ifs) <;>
          (try simp only [pyAdd, runValue]) <;>
            exact ⟨_, rfl⟩

theorem adjustAir_num (q : ℚ) (r : CategoryResult) :
    ∃ x, runValue (adjustAir (.num q) r) = .num x := by
  unfold adjustAir
  rcases r.visibility with lvl | _ <;>
    rcases r.smog_density with smog | _ <;>
      simp only [subGet, pyAdd, runValue] <;>
        (try split_ifs) <;>
          (try simp only [pyAdd, runValue]) <;>
            exact ⟨_, rfl⟩

theorem adjustContam_num (q : ℚ) (r : CategoryResult) :
    ∃ x, runValue (adjustContam (.num q) r) = .num x := by
  unfold adjustContam
  rcases r.texture_anomalies with tex | _ <;>
    [rcases tex with _ | tv; skip] <;>
      [skip; rcases tv with tq | _; skip] <;>
        simp only [subGet, pyAdd, runValue, Option.getD] <;>
          (try split_ifs) <;>
            (try simp only [pyAdd, runValue]) <;>
              exact ⟨_, rfl⟩

theorem adjustRun_num (q : ℚ) (r : CategoryResult) (ty : String) :
    ∃ x, adjustRun (.num q) r ty = .num x := by
  unfold adjustRun adjustTry
  split
  · exact adjustWater_num q r
  · split
    · exact adjustAir_num q r
    · split
      · exact adjustContam_num q r
      · exact ⟨q, rfl⟩

theorem adjust_clamp_bounds (x : ℚ) :
    1/10 ≤ pyMin (pyMax x (1/10)) 1 ∧ pyMin (pyMax x (1/10)) 1 ≤ 1 := by
  rw [pyMin_eq, pyMax_eq]
  exact ⟨le_min (le_max_right _ _) (by norm_num), min_le_right _ _⟩

theorem adjustWater_turb_bad (q : ℚ) (r : CategoryResult) (h : r.turbidity = .bad) :
    runValue (adjustWater (.num q) r) = .num q := by
  unfold adjustWater
  rw [h]
  rfl

theorem adjustAir_vis_bad (q : ℚ) (r : CategoryResult) (h : r.visibility = .bad) :
    runValue (adjustAir (.num q) r) = .num q := by
  unfold adjustAir
  rw [h]
  rfl

theorem adjustContam_tex_bad (q : ℚ) (r : CategoryResult) (h : r.texture_anomalies = .bad) :
    runValue (adjustContam (.num q) r) =
      .num (q + if r.detected.getD false = true ∧ r.type.getD "unknown" ≠ "unknown"
        then 1/10 else 0) := by
  unfold adjustContam
  split_ifs with hd
  · simp only [pyAdd, h, subGet, runValue]
  · simp only [h, subGet, runValue, add_zero]

/-- C5: `generate_confidence_report` never raises to its caller: it is a
total function of the input, and whenever its internal computation raises
it returns exactly the degraded report (confidence 0.3, level "low",
score 0.5, with an error marker field); otherwise the report carries no
error marker. -/
theorem C5_report_never_raises (rs : ResultSet) :
    (pyRaises (reportBody rs) = true →
      generate_confidence_report rs =
        { overall_confidence := 3/10, confidence_level := "low", environmental_score := 1/2,
          individual_confidences := none, quality_indicators := none,
          uncertainty_penalty := none, recommendations := none,
          error := some "Failed to generate confidence report" }) ∧
    (pyRaises (reportBody rs) = false → (generate_confidence_report rs).error = none) := by
  rcases h : reportBody rs with e | r
  · refine ⟨fun _ => ?_, fun hf => ?_⟩
    · simp only [generate_confidence_report, h]
    · simp [pyRaises] at hf
  · refine ⟨fun ht => ?_, fun _ => ?_⟩
    · simp [pyRaises] at ht
    · simp only [generate_confidence_report, h]
      unfold reportBody at h
      split at h
      · exact absurd h (by simp)
      · split at h
        · exact absurd h (by simp)
        · simp only [Except.ok.injEq] at h
          rw [← h]

/-- C5 witness: a malformed category value (not a dictionary) makes the
internal computation raise, and the report is exactly the degraded one. -/
theorem C5_report_never_raises_witness :
    pyRaises (reportBody nondictSet) = true ∧
    generate_confidence_report nondictSet =
      { overall_confidence := 3/10, confidence_level := "low", environmental_score := 1/2,
        individual_confidences := none, quality_indicators := none,
        uncertainty_penalty := none, recommendations := none,
        error := some "Failed to generate confidence report" } :=
  ⟨rfl, (C5_report_never_raises nondictSet).1 rfl⟩

/-- C6 counterexample: with a clear turbidity reading (+0.1 applied) and
a wrong-typed `color_index`, the swallowed failure does not fall back to
the unadjusted base confidence 0.5: the function returns 0.6, keeping
the increment applied before the failure. -/
theorem C6_unadjusted_fallback_counterexample :
    adjust_confidence_by_quality (.num (1/2)) badColorResult "water_quality" = .ok (3/5) ∧
    (3/5 : ℚ) ≠ 1/2 := by
  constructor
  · norm_num [adjust_confidence_by_quality, adjustRun, adjustTry, adjustWater, subGet,
      pyAdd, badColorResult, baseResult, runValue, pyMin, pyMax]
  · norm_num

/-- C6 (amended): when a heuristic evaluation fails, the failure is
swallowed and the category's adjusted confidence is the value accumulated
before the failure, clamped to [0.1, 1.0] — equal to the unadjusted base
confidence when the failure happens before any increment (wrong-typed
`turbidity` or `visibility`), but keeping the already-applied detection
boost when `texture_anomalies` is wrong-typed; the function never raises
on a numeric base, so aggregation proceeds for the other categories. -/
theorem C6_heuristic_failure_fallback (q : ℚ) (r : CategoryResult) (ty : String) :
    (∃ x, adjust_confidence_by_quality (.num q) r ty = .ok x ∧ 1/10 ≤ x ∧ x ≤ 1) ∧
    (ty = "water_quality" → r.turbidity = .bad →
      adjust_confidence_by_quality (.num q) r ty = .ok (min (max q (1/10)) 1)) ∧
    (ty = "air_quality" → r.visibility = .bad →
      adjust_confidence_by_quality (.num q) r ty = .ok (min (max q (1/10)) 1)) ∧
    (ty = "visual_contamination" → r.texture_anomalies = .bad →
      adjust_confidence_by_quality (.num q) r ty =
        .ok (min (max (q + if r.detected.getD false = true ∧ r.type.getD "unknown" ≠ "unknown"
          then 1/10 else 0) (1/10)) 1)) := by
  refine ⟨?_, ?_, ?_, ?_⟩
  · obtain ⟨x, hx⟩ := adjustRun_num q r ty
    unfold adjust_confidence_by_quality
    rw [hx]
    exact ⟨_, rfl, adjust_clamp_bounds x⟩
  · intro h1 h2
    subst h1
    unfold adjust_confidence_by_quality adjustRun adjustTry
    rw [if_pos rfl, adjustWater_turb_bad q r h2]
    simp only [pyMin_eq, pyMax_eq]
  · intro h1 h2
    subst h1
    unfold adjust_confidence_by_quality adjustRun adjustTry
    rw [if_neg (by decide), if_pos rfl, adjustAir_vis_bad q r h2]
    simp only [pyMin_eq, pyMax_eq]
  · intro h1 h2
    subst h1
    unfold adjust_confidence_by_quality adjustRun adjustTry
    rw [if_neg (by decide), if_neg (by decide), if_pos rfl,
      adjustContam_tex_bad q r h2]
    simp only [pyMin_eq, pyMax_eq]

/-- C6 witness: a wrong-typed `turbidity` slot falls back to the clamped
unadjusted base confidence. -/
theorem C6_heuristic_failure_fallback_witness :
    adjust_confidence_by_quality (.num (1/2)) turbBadResult "water_quality" =
      .ok (min (max (1/2) (1/10)) 1) :=
  (C6_heuristic_failure_fallback (1/2) turbBadResult "water_quality").2.1 rfl rfl

theorem clarityCount_wf (ty : String) (v : CategoryValue) (h : v.wellFormed = true) :
    clarityCount ty v = .ok (if unambiguousReading ty v then 1 else 0) := by
  rcases wf_dict h with ⟨r, rfl, hr⟩
  unfold CategoryResult.wellFormed at hr
  simp only [Bool.and_eq_true] at hr
  obtain ⟨⟨⟨⟨⟨⟨hso, hco⟩, ht⟩, hci⟩, hvi⟩, hsm⟩, htex⟩ := hr
  unfold clarityCount unambiguousReading
  by_cases h1 : ty = "water_quality"
  · rcases hq : r.turbidity with lvl | _
    · simp [h1, hq, subLevelD]
    · rw [hq] at ht
      simp [SubDict.isDict] at ht
  · by_cases h2 : ty = "air_quality"
    · rcases hq : r.visibility with lvl | _
      · simp [h1, h2, hq, subLevelD]
      · rw [hq] at hvi
        simp [SubDict.isDict] at hvi
    · by_cases h3 : ty = "visual_contamination"
      · simp [h1, h2, h3]
      · simp [h1, h2, h3]

theorem sum_ite_count {α : Type} (b : α → Bool) (l : List α) :
    (l.map (fun x => if b x then 1 else 0)).sum = l.countP b := by
  induction l with
  | nil => rfl
  | cons x xs ih =>
    by_cases hx : b x <;> simp [List.countP_cons, hx, ih, Nat.add_comm]

/-- C7 counterexample: a `visual_contamination` result with
`detected = False` but `type = "plastic"` is counted as a clear detection
by `_assess_quality_indicators` (clarity 1), whereas the Confidence
Adjuster's boost rule (`detected` true AND `type != "unknown"`) would
count 0 — the two extreme-value rule sets are not the same. -/
theorem C7_detection_clarity_counterexample :
    (∃ qi, assessBody undetectedTypedSet = .ok qi ∧ qi.detection_clarity = 1) ∧
    undetectedTyped.detected.getD false = false ∧ (1 : ℚ) ≠ 0 := by
  refine ⟨⟨_, rfl, ?_⟩, rfl, by norm_num⟩
  norm_num [undetectedTypedSet, undetectedTyped, baseResult]
  decide

/-- C7 (amended): on well-typed result sets whose keys are among the
known categories, `detection_clarity` equals the number of categories
with an unambiguous reading — water: turbidity level in
{clear, highly_turbid}; air: visibility level in {excellent, poor};
visual_contamination: `type != "unknown"` (regardless of `detected`) —
divided by the number of present categories, and 0.5 when none are
present. -/
theorem C7_detection_clarity (rs : ResultSet) (hwf : wellFormedSet rs = true)
    (hkeys : ∀ p ∈ rs, p.1 ∈ knownCategories) :
    ∃ qi, assessBody rs = .ok qi ∧
      qi.detection_clarity = (if rs.length = 0 then 1/2
        else ((rs.countP (fun p => unambiguousReading p.1 p.2) : ℚ) / rs.length)) := by
  have hmap : pyMap (fun p => clarityCount p.1 p.2) rs =
      .ok (rs.map (fun p => if unambiguousReading p.1 p.2 then 1 else 0)) := by
    apply pyMap_ok_of_forall
    intro p hp
    exact clarityCount_wf p.1 p.2 (by
      have := List.all_eq_true.mp hwf p hp
      simpa using this)
  have hassess : assessBody rs = .ok
      { data_completeness := (rs.length : ℚ) / 3,
        result_consistency := 1 - calculate_uncertainty_penalty rs / (3/10),
        detection_clarity :=
          if 0 < rs.length then
            ((((rs.map (fun p => if unambiguousReading p.1 p.2 then (1:ℕ) else 0)).sum : ℕ) : ℚ)) /
              rs.length
          else 1/2 } := by
    simp only [assessBody, hmap]
  refine ⟨_, hassess, ?_⟩
  rcases rs with _ | ⟨p, rest⟩
  · norm_num
  · have hlen : (p :: rest).length ≠ 0 := by simp
    have hlt : 0 < (p :: rest).length := by simp
    rw [if_pos hlt, if_neg hlen, sum_ite_count]

/-- C7 witness: the amended clarity formula on a concrete well-formed
single-category set. -/
theorem C7_detection_clarity_witness :
    ∃ qi, assessBody clearWaterSet = .ok qi ∧
      qi.detection_clarity = (if clearWaterSet.length = 0 then 1/2
        else ((clearWaterSet.countP (fun p => unambiguousReading p.1 p.2) : ℚ) /
          clearWaterSet.length)) :=
  C7_detection_clarity clearWaterSet (by decide) (by decide)

theorem envPair_congr (r1 r2 : CategoryResult) (hs : r1.overall_score = r2.overall_score)
    (hc : r1.confidence = r2.confidence) : envPair (.dict r1) = envPair (.dict r2) := by
  simp only [envPair]
  rw [hs, hc]

theorem envAux_congr (l1 l2 : List (String × ℚ × CategoryValue))
    (h : List.Forall₂ (fun x y => x.2.1 = y.2.1 ∧ envPair x.2.2 = envPair y.2.2) l1 l2) :
    envAux l1 = envAux l2 := by
  have hm : pyMap (fun x => envPairW x.2.1 x.2.2) l1 =
      pyMap (fun x => envPairW x.2.1 x.2.2) l2 := by
    induction h with
    | nil => rfl
    | cons hxy hrest ih =>
      rename_i x y l1' l2'
      show pyMap _ (x :: l1') = pyMap _ (y :: l2')
      have hxy' : envPairW x.2.1 x.2.2 = envPairW y.2.1 y.2.2 := by
        unfold envPairW
        rw [hxy.1, hxy.2]
      unfold pyMap
      rw [ih, hxy']
  unfold envAux
  rw [hm]

theorem optEntry_forall2 (ty : String) (w : ℚ) (o1 o2 : Option CategoryValue)
    (h : sameScoreConf o1 o2) :
    List.Forall₂ (fun x y => x.2.1 = y.2.1 ∧ envPair x.2.2 = envPair y.2.2)
      (optEntry ty w o1) (optEntry ty w o2) := by
  match o1, o2, h with
  | none, none, _ => exact .nil
  | some (.dict r1), some (.dict r2), h =>
    exact .cons ⟨rfl, envPair_congr r1 r2 h.1 h.2⟩ .nil
  | none, some v, h => exact h.elim
  | some v, none, h =>
    cases v with
    | dict r => exact h.elim
    | nondict => exact h.elim
  | some (.dict r1), some .nondict, h => exact h.elim
  | some .nondict, some v, h => exact h.elim

/-- C9: the environmental score depends only on the `overall_score` and
`confidence` fields of the present categories — two result sets with the
same presence pattern and identical score/confidence per category yield
the same score regardless of their qualitative sub-fields; in particular
the uncertainty penalty and the confidence adjustments never affect it. -/
theorem C9_env_score_noninterference (rs1 rs2 : ResultSet)
    (h : ∀ ty ∈ knownCategories, sameScoreConf (rs1.lookup ty) (rs2.lookup ty)) :
    calculate_environmental_score rs1 = calculate_environmental_score rs2 := by
  have hw := h "water_quality" (by simp [knownCategories])
  have ha := h "air_quality" (by simp [knownCategories])
  have hv := h "visual_contamination" (by simp [knownCategories])
  unfold calculate_environmental_score
  have heq : envAux (presentPairs rs1) = envAux (presentPairs rs2) := by
    rw [presentPairs_decomp rs1, presentPairs_decomp rs2]
    exact envAux_congr _ _ (List.rel_append (optEntry_forall2 _ _ _ _ hw)
      (List.rel_append (optEntry_forall2 _ _ _ _ ha) (optEntry_forall2 _ _ _ _ hv)))
  rw [heq]

/-- C9 witness: same score/confidence, completely different qualitative
sub-fields (and even a wrong-typed one) — identical environmental score. -/
theorem C9_env_score_noninterference_witness :
    calculate_environmental_score clearWaterSet =
      calculate_environmental_score clearWaterSetQual := by
  apply C9_env_score_noninterference
  intro ty hty
  simp only [knownCategories, List.mem_cons, List.not_mem_nil, or_false] at hty
  rcases hty with rfl | rfl | rfl
  · exact ⟨rfl, rfl⟩
  · trivial
  · trivial

theorem lookup_filter_ne (ty k : String) (hne : ty ≠ k) (rs : ResultSet) :
    (rs.filter (fun p => !(p.1 == k))).lookup ty = rs.lookup ty := by
  induction rs with
  | nil => rfl
  | cons p rest ih =>
    obtain ⟨a, b⟩ := p
    by_cases hak : a = k
    · subst hak
      have h1 : (ty == a) = false := beq_eq_false_iff_ne.mpr hne
      simp [List.filter_cons, List.lookup, h1, ih]
    · have h2 : (a == k) = false := beq_eq_false_iff_ne.mpr hak
      by_cases hta : (ty == a) = true
      · simp [List.filter_cons, h2, List.lookup, hta]
      · have hta' : (ty == a) = false := by
          rw [Bool.not_eq_true] at hta
          exact hta
        simp [List.filter_cons, h2, List.lookup, hta', ih]

theorem presentPairs_filter (rs : ResultSet) (k : String) (hk : k ∉ knownCategories) :
    presentPairs (rs.filter (fun p => !(p.1 == k))) = presentPairs rs := by
  have h1 : "water_quality" ≠ k := fun h => hk (by rw [← h]; simp [knownCategories])
  have h2 : "air_quality" ≠ k := fun h => hk (by rw [← h]; simp [knownCategories])
  have h3 : "visual_contamination" ≠ k := fun h => hk (by rw [← h]; simp [knownCategories])
  rw [presentPairs_decomp, presentPairs_decomp, lookup_filter_ne _ _ h1 rs,
    lookup_filter_ne _ _ h2 rs, lookup_filter_ne _ _ h3 rs]

/-- C10: keys outside the three known categories are ignored by
`calculate_overall_confidence`, `calculate_environmental_score` and
`_calculate_uncertainty_penalty` (removing such a key changes nothing),
while `_assess_quality_indicators` counts them: `data_completeness` is
the total number of entries divided by 3 (so it can exceed 1), and an
unknown key contributes to `detection_clarity`'s denominator but can
never count as a clear detection. -/
theorem C10_unknown_keys_ignored (rs : ResultSet) (k : String) (hk : k ∉ knownCategories) :
    calculate_overall_confidence (rs.filter (fun p => !(p.1 == k))) =
        calculate_overall_confidence rs ∧
    calculate_environmental_score (rs.filter (fun p => !(p.1 == k))) =
        calculate_environmental_score rs ∧
    calculate_uncertainty_penalty (rs.filter (fun p => !(p.1 == k))) =
        calculate_uncertainty_penalty rs ∧
    (∀ v, clarityCount k v = .ok 0) ∧
    (∀ qi, assessBody rs = .ok qi → qi.data_completeness = (rs.length : ℚ) / 3) := by
  have hk1 : ¬(k = "water_quality") := fun h => hk (by rw [h]; simp [knownCategories])
  have hk2 : ¬(k = "air_quality") := fun h => hk (by rw [h]; simp [knownCategories])
  have hk3 : ¬(k = "visual_contamination") := fun h => hk (by rw [h]; simp [knownCategories])
  have hpen : calculate_uncertainty_penalty (rs.filter (fun p => !(p.1 == k))) =
      calculate_uncertainty_penalty rs := by
    unfold calculate_uncertainty_penalty
    rw [presentPairs_filter rs k hk]
  refine ⟨?_, ?_, hpen, ?_, ?_⟩
  · unfold calculate_overall_confidence
    rw [presentPairs_filter rs k hk, hpen]
  · unfold calculate_environmental_score
    rw [presentPairs_filter rs k hk]
  · intro v
    unfold clarityCount
    rw [if_neg hk1, if_neg hk2, if_neg hk3]
  · intro qi h
    unfold assessBody at h
    split at h
    · exact absurd h (by simp)
    · simp only [Except.ok.injEq] at h
      rw [← h]

/-- C10 witness: a four-entry result set with the unknown key
"noise_level" — removing the key leaves the three aggregate values
unchanged, the unknown key is never a clear detection, and
`data_completeness` is 4/3 > 1. -/
theorem C10_unknown_keys_ignored_witness :
    calculate_overall_confidence (extraKeySet.filter (fun p => !(p.1 == "noise_level"))) =
        calculate_overall_confidence extraKeySet ∧
    clarityCount "noise_level" (.dict baseResult) = .ok 0 ∧
    (∀ qi, assessBody extraKeySet = .ok qi →
      qi.data_completeness = (extraKeySet.length : ℚ) / 3) ∧
    (1 : ℚ) < (extraKeySet.length : ℚ) / 3 := by
  have T := C10_unknown_keys_ignored extraKeySet "noise_level" (by decide)
  exact ⟨T.1, T.2.2.2.1 _, T.2.2.2.2, by norm_num [extraKeySet, sampleSet]⟩

theorem setScore_cons (p : String × CategoryValue) (rest : ResultSet) (ty : String) (s : ℚ) :
    setScore (p :: rest) ty s =
      (if p.1 = ty then (p.1, setScoreVal p.2 s) else p) :: setScore rest ty s := rfl

theorem lookup_setScore_self (ty : String) (s : ℚ) (rs : ResultSet) :
    (setScore rs ty s).lookup ty = (rs.lookup ty).map (fun v => setScoreVal v s) := by
  induction rs with
  | nil => rfl
  | cons p rest ih =>
    obtain ⟨a, b⟩ := p
    rw [setScore_cons]
    by_cases hat : a = ty
    · subst hat
      have hif : (if ((a, b) : String × CategoryValue).1 = a
          then (((a, b) : String × CategoryValue).1, setScoreVal ((a, b) : String × CategoryValue).2 s)
          else (a, b)) = (a, setScoreVal b s) := if_pos rfl
      rw [hif]
      simp [List.lookup]
    · have hif : (if ((a, b) : String × CategoryValue).1 = ty
          then (((a, b) : String × CategoryValue).1, setScoreVal ((a, b) : String × CategoryValue).2 s)
          else (a, b)) = (a, b) := if_neg hat
      rw [hif]
      have h2 : (ty == a) = false := beq_eq_false_iff_ne.mpr (fun h => hat h.symm)
      simp only [List.lookup, h2]
      exact ih

theorem lookup_setScore_ne (ty ty' : String) (s : ℚ) (h : ty' ≠ ty) (rs : ResultSet) :
    (setScore rs ty s).lookup ty' = rs.lookup ty' := by
  induction rs with
  | nil => rfl
  | cons p rest ih =>
    obtain ⟨a, b⟩ := p
    rw [setScore_cons]
    by_cases hat : a = ty
    · subst hat
      have hif : (if ((a, b) : String × CategoryValue).1 = a
          then (((a, b) : String × CategoryValue).1, setScoreVal ((a, b) : String × CategoryValue).2 s)
          else (a, b)) = (a, setScoreVal b s) := if_pos rfl
      rw [hif]
      have h2 : (ty' == a) = false := beq_eq_false_iff_ne.mpr h
      simp only [List.lookup, h2]
      exact ih
    · have hif : (if ((a, b) : String × CategoryValue).1 = ty
          then (((a, b) : String × CategoryValue).1, setScoreVal ((a, b) : String × CategoryValue).2 s)
          else (a, b)) = (a, b) := if_neg hat
      rw [hif]
      by_cases hta : (ty' == a) = true
      · simp [List.lookup, hta]
      · have hta' : (ty' == a) = false := by
          rw [Bool.not_eq_true] at hta
          exact hta
        simp only [List.lookup, hta']
        exact ih

theorem setScoreVal_wf (v : CategoryValue) (s : ℚ) (h : v.wellFormed = true) :
    (setScoreVal v s).wellFormed = true := by
  rcases wf_dict h with ⟨r, rfl, hr⟩
  unfold CategoryResult.wellFormed at hr
  simp only [Bool.and_eq_true] at hr
  obtain ⟨⟨⟨⟨⟨⟨hso, hco⟩, ht⟩, hci⟩, hvi⟩, hsm⟩, htex⟩ := hr
  show ({ r with overall_score := some (.num s) } : CategoryResult).wellFormed = true
  unfold CategoryResult.wellFormed
  simp only [Bool.and_eq_true]
  exact ⟨⟨⟨⟨⟨⟨rfl, hco⟩, ht⟩, hci⟩, hvi⟩, hsm⟩, htex⟩

theorem wf_setScore (rs : ResultSet) (ty : String) (s : ℚ) (h : wellFormedSet rs = true) :
    wellFormedSet (setScore rs ty s) = true := by
  unfold wellFormedSet setScore
  rw [List.all_map]
  rw [List.all_eq_true]
  intro p hp
  have hpwf : p.2.wellFormed = true := by
    have := List.all_eq_true.mp h p hp
    simpa using this
  simp only [Function.comp]
  by_cases hpt : p.1 = ty
  · simp only [if_pos hpt]
    exact setScoreVal_wf _ _ hpwf
  · simp only [if_neg hpt]
    simpa using hpwf

theorem weightedSum_mono_mid (A B : List (ℚ × ℚ)) (b1 b2 w : ℚ) (hw : 0 < w)
    (hA : ∀ p ∈ A, 0 ≤ p.2) (hB : ∀ p ∈ B, 0 ≤ p.2) (h : b1 ≤ b2) :
    weightedSum (A ++ (b1, w) :: B) ≤ weightedSum (A ++ (b2, w) :: B) := by
  rw [weightedSum_eq, weightedSum_eq]
  have hA' : 0 ≤ (A.map (fun p => p.2)).sum := by
    apply List.sum_nonneg
    intro x hx
    rcases List.mem_map.mp hx with ⟨p, hp, rfl⟩
    exact hA p hp
  have hB' : 0 ≤ (B.map (fun p => p.2)).sum := by
    apply List.sum_nonneg
    intro x hx
    rcases List.mem_map.mp hx with ⟨p, hp, rfl⟩
    exact hB p hp
  simp only [List.map_append, List.map_cons, List.sum_append, List.sum_cons]
  have hnum : (A.map (fun p => p.1 * p.2)).sum + (b1 * w + (B.map (fun p => p.1 * p.2)).sum) ≤
      (A.map (fun p => p.1 * p.2)).sum + (b2 * w + (B.map (fun p => p.1 * p.2)).sum) := by
    have := mul_le_mul_of_nonneg_right h hw.le
    linarith
  have hWpos : 0 < (A.map (fun p => p.2)).sum + (w + (B.map (fun p => p.2)).sum) := by
    linarith
  exact div_le_div_of_nonneg_right hnum hWpos.le

theorem optEntry_mem_weight {ty : String} {w : ℚ} {o : Option CategoryValue}
    {p : String × ℚ × CategoryValue} (hp : p ∈ optEntry ty w o) : p.2.1 = w := by
  cases o with
  | none => simp [optEntry] at hp
  | some v =>
    simp [optEntry] at hp
    rw [hp]

theorem clamp_weighted_mid_mono (A B : List (String × ℚ × CategoryValue))
    (v1 v2 : CategoryValue) (ty : String) (w : ℚ) (hw : 0 < w)
    (hA : ∀ p ∈ A, 0 ≤ p.2.1) (hB : ∀ p ∈ B, 0 ≤ p.2.1)
    (hb : blendOf v1 ≤ blendOf v2) :
    clamp01 (weightedSum ((A ++ (ty, w, v1) :: B).map (fun x => (blendOf x.2.2, x.2.1)))) ≤
      clamp01 (weightedSum ((A ++ (ty, w, v2) :: B).map (fun x => (blendOf x.2.2, x.2.1)))) := by
  simp only [List.map_append, List.map_cons]
  apply clamp01_mono
  apply weightedSum_mono_mid _ _ _ _ _ hw ?_ ?_ hb
  · intro p hp
    rcases List.mem_map.mp hp with ⟨x, hx, rfl⟩
    exact hA x hx
  · intro p hp
    rcases List.mem_map.mp hp with ⟨x, hx, rfl⟩
    exact hB x hx

theorem append_cons_ne_nil {α : Type} (L1 L2 : List α) (x : α) :
    ((L1 ++ x :: L2).isEmpty) = false := by
  cases L1 <;> rfl

/-- C8: holding everything else fixed, raising a present category's
`overall_score` (with that category's confidence in [0, 1]) does not
decrease the environmental score. -/
theorem C8_env_score_monotone (rs : ResultSet) (ty : String) (r : CategoryResult)
    (c s1 s2 : ℚ) (hwf : wellFormedSet rs = true) (hty : ty ∈ knownCategories)
    (hl : rs.lookup ty = some (.dict r)) (hc : confQ (.dict r) = c)
    (hc0 : 0 ≤ c) (hc1 : c ≤ 1) (hs0 : 0 ≤ s1) (h12 : s1 ≤ s2) (hs2 : s2 ≤ 1) :
    calculate_environmental_score (setScore rs ty s1) ≤
      calculate_environmental_score (setScore rs ty s2) := by
  have hb12 : blendOf (.dict { r with overall_score := some (.num s1) }) ≤
      blendOf (.dict { r with overall_score := some (.num s2) }) := by
    have e1 : blendOf (.dict { r with overall_score := some (.num s1) }) =
        s1 * confQ (.dict r) + (1/2) * (1 - confQ (.dict r)) := rfl
    have e2 : blendOf (.dict { r with overall_score := some (.num s2) }) =
        s2 * confQ (.dict r) + (1/2) * (1 - confQ (.dict r)) := rfl
    rw [e1, e2, hc]
    have := mul_le_mul_of_nonneg_right h12 hc0
    linarith
  have henv : ∀ s : ℚ, calculate_environmental_score (setScore rs ty s) =
      (if (presentPairs (setScore rs ty s)).isEmpty then 1/2
        else clamp01 (weightedSum ((presentPairs (setScore rs ty s)).map
          (fun x => (blendOf x.2.2, x.2.1))))) := by
    intro s
    unfold calculate_environmental_score
    rw [envAux_wf _ (fun x hx =>
      wellFormed_numericFields (presentPairs_mem_wf (wf_setScore rs ty s hwf) hx))]
  rw [henv s1, henv s2]
  simp only [knownCategories, List.mem_cons, List.not_mem_nil, or_false] at hty
  rcases hty with rfl | rfl | rfl
  · have hdec : ∀ s : ℚ, presentPairs (setScore rs "water_quality" s) =
        ("water_quality", (35:ℚ)/100, CategoryValue.dict { r with overall_score := some (.num s) }) ::
          (optEntry "air_quality" (35/100) (rs.lookup "air_quality") ++
            optEntry "visual_contamination" (30/100) (rs.lookup "visual_contamination")) := by
      intro s
      rw [presentPairs_decomp, lookup_setScore_self, hl,
        lookup_setScore_ne _ _ _ (by decide) rs, lookup_setScore_ne _ _ _ (by decide) rs]
      rfl
    rw [hdec s1, hdec s2]
    have hB : ∀ p ∈ optEntry "air_quality" ((35:ℚ)/100) (rs.lookup "air_quality") ++
        optEntry "visual_contamination" ((30:ℚ)/100) (rs.lookup "visual_contamination"),
        (0:ℚ) ≤ p.2.1 := by
      intro p hp
      rcases List.mem_append.mp hp with h' | h'
      · rw [optEntry_mem_weight h']
        norm_num
      · rw [optEntry_mem_weight h']
        norm_num
    simp only [List.isEmpty_cons, Bool.false_eq_true, if_false]
    exact clamp_weighted_mid_mono [] _ _ _ _ _ (by norm_num)
      (by intro p hp; simp at hp) hB hb12
  · have hdec : ∀ s : ℚ, presentPairs (setScore rs "air_quality" s) =
        optEntry "water_quality" ((35:ℚ)/100) (rs.lookup "water_quality") ++
          (("air_quality", (35:ℚ)/100,
              CategoryValue.dict { r with overall_score := some (.num s) }) ::
            optEntry "visual_contamination" (30/100) (rs.lookup "visual_contamination")) := by
      intro s
      rw [presentPairs_decomp, lookup_setScore_self, hl,
        lookup_setScore_ne _ _ _ (by decide) rs, lookup_setScore_ne _ _ _ (by decide) rs]
      rfl
    rw [hdec s1, hdec s2]
    have hA : ∀ p ∈ optEntry "water_quality" ((35:ℚ)/100) (rs.lookup "water_quality"),
        (0:ℚ) ≤ p.2.1 := by
      intro p hp
      rw [optEntry_mem_weight hp]
      norm_num
    have hB : ∀ p ∈ optEntry "visual_contamination" ((30:ℚ)/100)
        (rs.lookup "visual_contamination"), (0:ℚ) ≤ p.2.1 := by
      intro p hp
      rw [optEntry_mem_weight hp]
      norm_num
    rw [append_cons_ne_nil, append_cons_ne_nil]
    simp only [Bool.false_eq_true, if_false]
    exact clamp_weighted_mid_mono _ _ _ _ _ _ (by norm_num) hA hB hb12
  · have hdec : ∀ s : ℚ, presentPairs (setScore rs "visual_contamination" s) =
        (optEntry "water_quality" ((35:ℚ)/100) (rs.lookup "water_quality") ++
          optEntry "air_quality" ((35:ℚ)/100) (rs.lookup "air_quality")) ++
          (("visual_contamination", (30:ℚ)/100,
              CategoryValue.dict { r with overall_score := some (.num s) }) :: []) := by
      intro s
      rw [presentPairs_decomp, lookup_setScore_self, hl,
        lookup_setScore_ne _ _ _ (by decide) rs, lookup_setScore_ne _ _ _ (by decide) rs,
        List.append_assoc]
      rfl
    rw [hdec s1, hdec s2]
    have hA : ∀ p ∈ optEntry "water_quality" ((35:ℚ)/100) (rs.lookup "water_quality") ++
        optEntry "air_quality" ((35:ℚ)/100) (rs.lookup "air_quality"), (0:ℚ) ≤ p.2.1 := by
      intro p hp
      rcases List.mem_append.mp hp with h' | h'
      · rw [optEntry_mem_weight h']
        norm_num
      · rw [optEntry_mem_weight h']
        norm_num
    rw [append_cons_ne_nil, append_cons_ne_nil]
    simp only [Bool.false_eq_true, if_false]
    exact clamp_weighted_mid_mono _ [] _ _ _ _ (by norm_num) hA
      (by intro p hp; simp at hp) hb12

/-- C8 witness: raising the water score from 0.25 to 0.75 in a concrete
well-formed set does not decrease the environmental score. -/
theorem C8_env_score_monotone_witness :
    calculate_environmental_score (setScore clearWaterSet "water_quality" (1/4)) ≤
      calculate_environmental_score (setScore clearWaterSet "water_quality" (3/4)) :=
  C8_env_score_monotone clearWaterSet "water_quality" sampleW (8/10) (1/4) (3/4)
    (by decide) (by decide) rfl rfl (by norm_num) (by norm_num) (by norm_num)
    (by norm_num) (by norm_num)
